import Mathlib

/-!
Shallow embedding of the `http` package of funagi/ipd (file `http/http.go`)
and proofs about its request-dispatch, response-building and error-handling
behaviour.

Conventions of the embedding:
* Network addresses (`net.IP`) are represented by their canonical textual
  form (the result of `(net.IP).String()`); the Go standard library
  functions `net.ParseIP`, `net.SplitHostPort`, the repository helper
  `iputil.ToDecimal` and `html/template` parsing are external to the file
  `http.go` and are passed in as the parameter structure `Net`.
* Fallible Go calls returning `(value, error)` are modelled with
  `Except String _` (the `String` is the Go error text) or, where the code
  ignores the error and only the zero-value convention matters, with
  `Option`.
* Writing to the `http.ResponseWriter` is modelled by returning a `Written`
  value (optional `Content-Type` header plus body bytes).
-/

namespace Ipd

/-- Lowercases one ASCII letter; other characters are unchanged. -/
def asciiLower (c : Char) : Char :=
  if 'A' ≤ c ∧ c ≤ 'Z' then Char.ofNat (c.toNat + 32) else c

/-- ASCII-lowercases a string; used to model the case-insensitive
canonicalisation that `http.Header.Get` applies to header names. -/
def strLower (s : String) : String :=
  ⟨s.toList.map asciiLower⟩

/-- One lowercase hexadecimal digit, as produced by the Go JSON encoder. -/
def hexDigit (n : Nat) : Char :=
  if n < 10 then Char.ofNat (48 + n) else Char.ofNat (87 + n)

/-- Two lowercase hexadecimal digits for a byte value. -/
def hex2 (n : Nat) : String :=
  ⟨[hexDigit (n / 16), hexDigit (n % 16)]⟩

/-- Escaping of a single character inside a JSON string literal, exactly as
Go `encoding/json` does it with the default HTML escaping: quote, backslash,
newline, carriage return and tab get two-character escapes, other control
characters a lowercase hexadecimal escape, and the HTML-sensitive characters
and the Unicode line separators get hexadecimal escapes. -/
def jsonEscapeChar (c : Char) : String :=
  if c = '"' then "\\\""
  else if c = '\\' then "\\\\"
  else if c = '\n' then "\\n"
  else if c = '\r' then "\\r"
  else if c = '\t' then "\\t"
  else if c.toNat < 0x20 then "\\u00" ++ hex2 c.toNat
  else if c = '<' then "\\u003c"
  else if c = '>' then "\\u003e"
  else if c = '&' then "\\u0026"
  else if c.toNat = 0x2028 then "\\u2028"
  else if c.toNat = 0x2029 then "\\u2029"
  else String.singleton c

/-- Go `encoding/json` rendering of a string value, quotes included. -/
def jsonQuote (s : String) : String :=
  "\"" ++ String.join (s.toList.map jsonEscapeChar) ++ "\""

/-- The constant `jsonMediaType` of http.go. -/
def jsonMediaType : String := "application/json"

/-- The constant `textMediaType` of http.go. -/
def textMediaType : String := "text/plain"

/-- An incoming HTTP request, with the parts of `http.Request` that
http.go reads: method, URL path, headers, `RemoteAddr`, the User-Agent
string (`r.UserAgent()`) and `r.Host`. -/
structure Request where
  method : String
  path : String
  headers : List (String × String)
  remoteAddr : String
  userAgent : String
  host : String
deriving DecidableEq, Repr

/-- Go `r.Header.Get(name)`: the first header whose name matches after MIME
canonicalisation (case-insensitively), or the empty string when the header
is absent. -/
def headerGet (r : Request) (name : String) : String :=
  match r.headers.find? (fun kv => strLower kv.1 = strLower name) with
  | some kv => kv.2
  | none => ""

/-- The country value returned by the geolocation database collaborator
(`database.Client.Country` yields a value with fields `Name` and `ISO`). -/
structure Country where
  name : String
  iso : String
deriving DecidableEq, Repr

/-- Modelled from the spec: the geolocation database collaborator
(`database.Client`, package `iputil/database`, not part of http.go). Each
lookup either succeeds with a value or fails; per the spec a collaborator
failure must leave the corresponding fields omitted/empty, so a failed
lookup is modelled as `none` and http.go reads the empty value in that
case. `isEmpty` is `database.Client.IsEmpty()`. -/
structure DBClient where
  country : String → Option Country
  city : String → Option String
  isEmpty : Bool

/-- Rendering of HTML-template data: given the data, the bytes written so
far and an optional execution error (Go `template.Execute` may write part
of the output before failing). -/
structure DefaultData where
  response_ip : String
  response_ipDecimal : Nat
  response_country : String
  response_countryISO : String
  response_city : String
  response_hostname : String
  hostField : String
  jsonField : String
  portField : Bool

/-- External functions used by http.go that live outside this file:
`net.ParseIP` (result kept in canonical textual form, `none` when the
string is not a valid address), `net.SplitHostPort` (host part or error),
`iputil.ToDecimal` and `html/template` parsing (template execution returns
the bytes written plus an optional error). -/
structure Net where
  parseIP : String → Option String
  splitHostPort : String → Except String String
  toDecimal : String → Nat
  parseTemplate : String → Except String (DefaultData → String × Option String)

/-- Modelled from the spec: the reverse-hostname collaborator
(`Server.LookupAddr`, injected at construction); a failed lookup yields the
empty hostname. The port-probe collaborator (`Server.LookupPort`) returns a
Go error; `none` models a nil error (port reachable) and `some e` a failed
probe with detail `e`. The remaining fields are the `Server` struct of
http.go: `Template`, `IPHeader` and the database client. -/
structure Server where
  template : String
  ipHeader : String
  lookupAddr : Option (String → Option String)
  lookupPort : Option (String → Nat → Option String)
  db : DBClient

/-- The function `ipFromRequest` of http.go: use the trusted header when
`r.Header.Get(header)` is non-empty, otherwise the host part of
`r.RemoteAddr`; then parse, failing with the Go error text on an
unparseable string. -/
def ipFromRequest (env : Net) (header : String) (r : Request) : Except String String :=
  let remoteIP := headerGet r header
  let source : Except String String :=
    if remoteIP = "" then
      match env.splitHostPort r.remoteAddr with
      | .error e => .error e
      | .ok host => .ok host
    else .ok remoteIP
  match source with
  | .error e => .error e
  | .ok s =>
    match env.parseIP s with
    | none => .error ("could not parse IP: " ++ s)
    | some ip => .ok ip

/-- The `Response` struct of http.go (the identity document). -/
structure Response where
  ip : String
  ipDecimal : Nat
  country : String
  countryISO : String
  city : String
  hostname : String
deriving DecidableEq, Repr

/-- The `PortResponse` struct of http.go. -/
structure PortResponse where
  ip : String
  port : Nat
  reachable : Bool
deriving DecidableEq, Repr

/-- The JSON key/value pairs of a `Response` in struct-field order, with
the `omitempty` fields dropped when empty, as `encoding/json` sees them. -/
def responseFields (resp : Response) : List (String × String) :=
  [("ip", jsonQuote resp.ip), ("ip_decimal", toString resp.ipDecimal)]
  ++ (if resp.country = "" then [] else [("country", jsonQuote resp.country)])
  ++ (if resp.countryISO = "" then [] else [("country_iso", jsonQuote resp.countryISO)])
  ++ (if resp.city = "" then [] else [("city", jsonQuote resp.city)])
  ++ (if resp.hostname = "" then [] else [("hostname", jsonQuote resp.hostname)])

/-- Go `json.Marshal` of a `Response` value. -/
def marshalResponse (resp : Response) : String :=
  "\x7b" ++ String.intercalate "," ((responseFields resp).map (fun kv => jsonQuote kv.1 ++ ":" ++ kv.2)) ++ "\x7d"

/-- Go `json.MarshalIndent(response, "", "  ")` of a `Response` value. -/
def marshalResponseIndent (resp : Response) : String :=
  "\x7b\n  " ++ String.intercalate ",\n  " ((responseFields resp).map (fun kv => jsonQuote kv.1 ++ ": " ++ kv.2)) ++ "\n\x7d"

/-- Go `json.Marshal` of a `PortResponse` value. -/
def marshalPortResponse (pr : PortResponse) : String :=
  "\x7b\"ip\":" ++ jsonQuote pr.ip ++ ",\"port\":" ++ toString pr.port
  ++ ",\"reachable\":" ++ (if pr.reachable then "true" else "false") ++ "\x7d"

/-- Go `strconv.ParseUint(s, 10, 16)`: the parsed value together with a
success flag. A syntax error (empty string or any non-digit character)
yields value 0; a range error (value above the 16-bit maximum) yields the
maximum value 65535; both with the flag false. -/
def parseUint16 (s : String) : Nat × Bool :=
  let cs := s.toList
  if cs = [] ∨ ¬ cs.all Char.isDigit then (0, false)
  else
    let v := cs.foldl (fun a c => a * 10 + (c.toNat - 48)) 0
    if v > 65535 then (65535, false) else (v, true)

/-- Go `filepath.Base` on a slash-separated path: empty input gives ".",
trailing separators are removed, a path of only separators gives "/", and
otherwise the part after the final separator is returned. -/
def filepathBase (p : String) : String :=
  if p = "" then "."
  else
    let cs := (p.toList.reverse.dropWhile (fun c => c = '/')).reverse
    if cs = [] then "/"
    else ⟨(cs.reverse.takeWhile (fun c => c ≠ '/')).reverse⟩

/-- Modelled from the spec: the structured error type `appError` (file
error.go, not part of http.go), a value carrying a numeric HTTP status
code, a message (human-readable or pre-serialised JSON) and an optional
response content type. -/
structure AppError where
  code : Nat
  message : String
  contentType : String
deriving DecidableEq, Repr

/-- Modelled from the spec: the `badRequest` constructor, producing a
request-error-class structured error (status 400) from a Go error. -/
def badRequest (e : String) : AppError :=
  ⟨400, e, ""⟩

/-- Modelled from the spec: the `internalServerError` constructor,
producing an internal-error-class structured error (status 500) surfaced
as a generic failure; the argument is the underlying Go error. -/
def internalServerError (_e : String) : AppError :=
  ⟨500, "Internal Server Error", ""⟩

/-- Modelled from the spec: the `notFound` constructor, producing a
not-found-class structured error (status 404). -/
def notFound : AppError :=
  ⟨404, "", ""⟩

/-- Modelled from the spec: `WithMessage` overrides the message text. -/
def AppError.WithMessage (e : AppError) (m : String) : AppError :=
  { e with message := m }

/-- Modelled from the spec: `AsJSON` marks the error for JSON re-encoding
by setting its content type to the JSON media type. -/
def AppError.AsJSON (e : AppError) : AppError :=
  { e with contentType := jsonMediaType }

/-- Modelled from the spec: `IsJSON` tests the JSON content-type marker. -/
def AppError.IsJSON (e : AppError) : Bool :=
  e.contentType = jsonMediaType

/-- What a handler has written to the `http.ResponseWriter`: an optional
`Content-Type` header and the body bytes. -/
structure Written where
  contentType : Option String
  body : String
deriving DecidableEq, Repr

/-- A response writer to which nothing has been written. -/
def noWrite : Written :=
  ⟨none, ""⟩

/-- The Go JSON document written by the dispatch adapter for a JSON-marked
error: the serialisation of a struct with the single field `error` holding
the message. -/
def marshalErrorObj (msg : String) : String :=
  "\x7b\"error\":" ++ jsonQuote msg ++ "\x7d"

/-- The method `appHandler.ServeHTTP` of http.go, restricted to what the
adapter itself writes. Input: the structured error returned by the wrapped
handler (`none` when the handler returned nil). Output: `none` when the
adapter writes nothing, otherwise the status code it writes, the
`Content-Type` header it sets (when the error specifies one) and the body
bytes. A JSON-marked error first has its message re-encoded into the
`error`-field document; `json.Marshal` of a struct holding one string
cannot fail, so the panic branch of the source is unreachable. -/
def appHandlerServeError : Option AppError → Option (Nat × Option String × String)
  | none => none
  | some e =>
    let msg := if e.IsJSON then marshalErrorObj e.message else e.message
    let ct : Option String := if e.contentType = "" then none else some e.contentType
    some (e.code, ct, msg)

/-- The method `Server.newResponse` of http.go: resolve the caller address
(fatal on failure), then consult the geolocation and reverse-hostname
collaborators, ignoring their errors (a failed lookup leaves the empty
value). -/
def newResponse (env : Net) (s : Server) (r : Request) : Except String Response :=
  match ipFromRequest env s.ipHeader r with
  | .error e => .error e
  | .ok ip =>
    let ipDecimal := env.toDecimal ip
    let country := (s.db.country ip).getD ⟨"", ""⟩
    let city := (s.db.city ip).getD ""
    let hostname :=
      match s.lookupAddr with
      | none => ""
      | some f => (f ip).getD ""
    .ok ⟨ip, ipDecimal, country.name, country.iso, city, hostname⟩

/-- The method `Server.newPortResponse` of http.go: parse the final path
element as a 16-bit unsigned integer, reject it (with the Go error text
over the parsed value) unless the parse succeeded and the value lies in
the code range 1..65355, then resolve the caller address and invoke the
port probe, reporting reachability as the absence of a probe error. The
result pairs the `PortResponse` with the optional error, mirroring the Go
multiple return; the outer `Option` is `none` exactly when the code would
dereference a nil `LookupPort` (impossible when the port route is
registered). -/
def newPortResponse (env : Net) (s : Server) (r : Request) :
    Option (PortResponse × Option String) :=
  let lastElement := filepathBase r.path
  let pr := parseUint16 lastElement
  let port := pr.1
  if pr.2 = false ∨ port < 1 ∨ port > 65355 then
    some (⟨"", port, false⟩, some ("invalid port: " ++ toString port))
  else
    match ipFromRequest env s.ipHeader r with
    | .error e => some (⟨"", port, false⟩, some e)
    | .ok ip =>
      match s.lookupPort with
      | none => none
      | some probe => some (⟨ip, port, (probe ip port).isNone⟩, none)

/-- The result of running a handler: what it wrote plus the structured
error it returned (`none` for a nil return). -/
abbrev HandlerResult := Written × Option AppError

/-- The handler `Server.CLIHandler` of http.go: resolve the caller address
(internal error on failure) and print its textual form followed by a
newline (`fmt.Fprintln`). -/
def CLIHandler (env : Net) (s : Server) (r : Request) : HandlerResult :=
  match ipFromRequest env s.ipHeader r with
  | .error e => (noWrite, some (internalServerError e))
  | .ok ip => (⟨none, ip ++ "\n"⟩, none)

/-- The handler `Server.CLICountryHandler` of http.go. -/
def CLICountryHandler (env : Net) (s : Server) (r : Request) : HandlerResult :=
  match newResponse env s r with
  | .error e => (noWrite, some (internalServerError e))
  | .ok resp => (⟨none, resp.country ++ "\n"⟩, none)

/-- The handler `Server.CLICountryISOHandler` of http.go. -/
def CLICountryISOHandler (env : Net) (s : Server) (r : Request) : HandlerResult :=
  match newResponse env s r with
  | .error e => (noWrite, some (internalServerError e))
  | .ok resp => (⟨none, resp.countryISO ++ "\n"⟩, none)

/-- The handler `Server.CLICityHandler` of http.go. -/
def CLICityHandler (env : Net) (s : Server) (r : Request) : HandlerResult :=
  match newResponse env s r with
  | .error e => (noWrite, some (internalServerError e))
  | .ok resp => (⟨none, resp.city ++ "\n"⟩, none)

/-- The handler `Server.JSONHandler` of http.go: build the identity
response (JSON-marked internal error on failure), marshal it, set the JSON
content type and write the document. Marshalling a `Response` cannot fail,
so that error branch of the source is unreachable. -/
def JSONHandler (env : Net) (s : Server) (r : Request) : HandlerResult :=
  match newResponse env s r with
  | .error e => (noWrite, some (internalServerError e).AsJSON)
  | .ok resp => (⟨some jsonMediaType, marshalResponse resp⟩, none)

/-- The handler `Server.PortHandler` of http.go: build the port response;
on any error from `newPortResponse` return a JSON-marked bad request whose
message names the parsed port of the returned response; otherwise marshal
the port document under the JSON content type. The outer `Option` follows
`newPortResponse`. -/
def PortHandler (env : Net) (s : Server) (r : Request) : Option HandlerResult :=
  match newPortResponse env s r with
  | none => none
  | some (resp, some e) =>
    some (noWrite, some (((badRequest e).WithMessage ("Invalid port: " ++ toString resp.port)).AsJSON))
  | some (resp, none) => some (⟨some jsonMediaType, marshalPortResponse resp⟩, none)

/-- The handler `Server.DefaultHandler` of http.go: build the identity
response, parse the configured template file, marshal the response with
indentation, and execute the template on the data struct (response fields,
request host, pretty JSON, port-testing flag); template execution may
write part of its output before failing, in which case the handler returns
an internal error after the partial write. -/
def DefaultHandler (env : Net) (s : Server) (r : Request) : HandlerResult :=
  match newResponse env s r with
  | .error e => (noWrite, some (internalServerError e))
  | .ok resp =>
    match env.parseTemplate s.template with
    | .error e => (noWrite, some (internalServerError e))
    | .ok t =>
      let js := marshalResponseIndent resp
      let data : DefaultData :=
        ⟨resp.ip, resp.ipDecimal, resp.country, resp.countryISO, resp.city,
         resp.hostname, r.host, js, s.lookupPort.isSome⟩
      match t data with
      | (out, some e) => (⟨none, out⟩, some (internalServerError e))
      | (out, none) => (⟨none, out⟩, none)

/-- The function `NotFoundHandler` of http.go: always returns a not-found
structured error with message "404 page not found", marked for JSON
rendering exactly when the Accept header equals the JSON media type; it
writes nothing itself. -/
def NotFoundHandler (r : Request) : AppError :=
  let e := notFound.WithMessage "404 page not found"
  if headerGet r "accept" = jsonMediaType then e.AsJSON else e

/-- The allow-list of the `switch` statement in `cliMatcher` of http.go. -/
def cliProducts : List String :=
  ["curl", "HTTPie", "Wget", "fetch libfetch", "Go", "Go-http-client", "ddclient"]

/-- The function `cliMatcher` of http.go, parameterised by the external
`useragent.Parse` product extraction (package `useragent`, not part of
http.go): true exactly when the parsed product of the request User-Agent
string is in the fixed allow-list. -/
def cliMatcher (uaParse : String → String) (r : Request) : Bool :=
  cliProducts.contains (uaParse r.userAgent)

/-- Identity of the handler bound to a route, one tag per handler method
of http.go (`jsonH` = `JSONHandler`, `cliH` = `CLIHandler`, `countryH` =
`CLICountryHandler`, `countryISOH` = `CLICountryISOHandler`, `cityH` =
`CLICityHandler`, `defaultH` = `DefaultHandler`, `portH` =
`PortHandler`). -/
inductive HandlerTag where
  | jsonH | cliH | countryH | countryISOH | cityH | defaultH | portH
deriving DecidableEq, Repr

/-- Modelled from the spec: the path-matching rule of a route, either an
exact path or a literal path-prefix comparison. -/
inductive PathRule where
  | exactP (p : String)
  | pfxP (p : String)

/-- Modelled from the spec: a route is an immutable bundle of a method, a
path rule, zero or more header-equality matchers, an optional arbitrary
predicate and a handler. -/
structure Route where
  method : String
  rule : PathRule
  headers : List (String × String)
  matcher : Option (Request → Bool)
  handler : HandlerTag

/-- Modelled from the spec: the router is an append-only ordered sequence
of routes; registration order encodes priority. -/
structure Router where
  routes : List Route

/-- Modelled from the spec: `NewRouter()` starts with no routes. -/
def NewRouter : Router :=
  ⟨[]⟩

/-- Modelled from the spec: `Router.Route(method, path, handler)` appends
an exact-path route with no header matchers and no predicate. -/
def Router.route (rt : Router) (m p : String) (h : HandlerTag) : Router :=
  ⟨rt.routes ++ [⟨m, .exactP p, [], none, h⟩]⟩

/-- Modelled from the spec: `Router.RoutePrefix(method, path, handler)`
appends a route whose path rule is a literal prefix comparison. -/
def Router.routePfx (rt : Router) (m p : String) (h : HandlerTag) : Router :=
  ⟨rt.routes ++ [⟨m, .pfxP p, [], none, h⟩]⟩

/-- Replaces the most recently registered route by an updated copy,
modelling the Go builder methods that mutate the route just returned by
`Route`. -/
def Router.modifyLast (rt : Router) (f : Route → Route) : Router :=
  ⟨rt.routes.dropLast ++ (rt.routes.getLast?.map f).toList⟩

/-- Modelled from the spec: `route.Header(name, value)` adds a
header-equality matcher to the route being registered. -/
def Router.header (rt : Router) (name value : String) : Router :=
  rt.modifyLast (fun r => { r with headers := r.headers ++ [(name, value)] })

/-- Modelled from the spec: `route.MatcherFunc(f)` attaches the arbitrary
predicate to the route being registered. -/
def Router.matcherFunc (rt : Router) (f : Request → Bool) : Router :=
  rt.modifyLast (fun r => { r with matcher := some f })

/-- The method `Server.Handler` of http.go, as the ordered route list it
registers: the two JSON routes, the three CLI routes (client-signature
predicate, text Accept header, /ip), the three geolocation routes guarded
by a non-empty database, the browser route, and the port route guarded by
a configured port probe. -/
def serverHandlerRoutes (s : Server) (uaParse : String → String) : List Route :=
  let rt := NewRouter
  let rt := (rt.route "GET" "/" .jsonH).header "Accept" jsonMediaType
  let rt := rt.route "GET" "/json" .jsonH
  let rt := (rt.route "GET" "/" .cliH).matcherFunc (cliMatcher uaParse)
  let rt := (rt.route "GET" "/" .cliH).header "Accept" textMediaType
  let rt := rt.route "GET" "/ip" .cliH
  let rt :=
    if s.db.isEmpty then rt
    else ((rt.route "GET" "/country" .countryH).route "GET" "/country-iso" .countryISOH).route "GET" "/city" .cityH
  let rt := rt.route "GET" "/" .defaultH
  let rt :=
    if s.lookupPort.isSome then rt.routePfx "GET" "/port/" .portH
    else rt
  rt.routes

/-- Concrete instance of `net.ParseIP` for the closed statements below,
agreeing with the Go function on the finitely many strings those
statements use: the dotted quads parse to themselves, "garbage" and the
empty string do not parse. -/
def parseIPc : String → Option String :=
  fun s => if s = "1.2.3.4" ∨ s = "10.0.0.7" then some s else none

/-- Concrete instance of `net.SplitHostPort` for the closed statements
below, agreeing with the Go function on the strings they use. -/
def splitHostPortC : String → Except String String :=
  fun s =>
    if s = "1.2.3.4:80" then .ok "1.2.3.4"
    else if s = "10.0.0.7:5555" then .ok "10.0.0.7"
    else .error ("address " ++ s ++ ": missing port in address")

/-- Concrete external-function bundle for the closed statements below. -/
def netC : Net :=
  ⟨parseIPc, splitHostPortC, fun _ => 16909060,
   fun _ => .error "open index.html: no such file or directory"⟩

/-- A database client whose lookups all fail, with an empty database. -/
def dbFailC : DBClient :=
  ⟨fun _ => none, fun _ => none, true⟩

/-- A concrete port probe: port 80 is reachable, every other port fails
with a connection-refused detail. -/
def probeC : String → Nat → Option String :=
  fun _ p => if p = 80 then none else some "dial tcp: connection refused"

/-- A concrete server: trusted header X-Ip, no reverse-hostname
collaborator, the concrete port probe, the failing database client. -/
def serverC : Server :=
  ⟨"index.html", "X-Ip", none, some probeC, dbFailC⟩

/-- A request with no headers and a well-formed remote address. -/
def reqOK : Request :=
  ⟨"GET", "/", [], "1.2.3.4:80", "", "example.com"⟩

/-- A request whose trusted header holds an unparseable value while the
remote address is well-formed. -/
def reqBadHdr : Request :=
  ⟨"GET", "/", [("X-Ip", "garbage")], "1.2.3.4:80", "", "example.com"⟩

/-- A request whose trusted header is present with an empty value. -/
def reqEmptyHdr : Request :=
  ⟨"GET", "/", [("X-Ip", "")], "1.2.3.4:80", "", "example.com"⟩

/-- A port request for 65400, a port inside the valid range 1..65535 but
above the code bound 65355. -/
def reqPort65400 : Request :=
  ⟨"GET", "/port/65400", [], "1.2.3.4:80", "", "example.com"⟩

/-- A port request with a non-numeric trailing segment. -/
def reqPortAbc : Request :=
  ⟨"GET", "/port/abc", [], "1.2.3.4:80", "", "example.com"⟩

/-- A port request for port 80 from a parseable caller address. -/
def reqPort80 : Request :=
  ⟨"GET", "/port/80", [], "1.2.3.4:80", "", "example.com"⟩

/-- A port request for the valid port 80 whose caller address does not
parse (unparseable trusted-header value). -/
def reqPort80BadAddr : Request :=
  ⟨"GET", "/port/80", [("X-Ip", "garbage")], "1.2.3.4:80", "", "example.com"⟩

/-- An unrouted request carrying Accept: application/json. -/
def reqAcceptJSON : Request :=
  ⟨"GET", "/nonexistent", [("Accept", "application/json")], "1.2.3.4:80", "", "example.com"⟩

/-- An unrouted request carrying Accept: text/plain. -/
def reqAcceptText : Request :=
  ⟨"GET", "/nonexistent", [("Accept", "text/plain")], "1.2.3.4:80", "", "example.com"⟩

/-- A request with a curl User-Agent string. -/
def reqCurl : Request :=
  ⟨"GET", "/", [], "1.2.3.4:80", "curl/7.58.0", "example.com"⟩

/-- A second request sharing the curl User-Agent string. -/
def reqCurl2 : Request :=
  ⟨"GET", "/other", [], "10.0.0.7:5555", "curl/7.58.0", "example.com"⟩

/-- Concrete stand-in for `useragent.Parse(...).Product` in the closed
statements below: the part of the User-Agent string before the first
slash, which agrees with the real parser on "curl/7.58.0". -/
def uaParseC : String → String :=
  fun ua => ⟨ua.toList.takeWhile (fun c => c ≠ '/')⟩

/-- A second concrete server sharing the trusted header of `serverC` but
with different collaborators, to exhibit collaborator independence. -/
def serverAltC : Server :=
  ⟨"other.html", "X-Ip", some (fun _ => some "host.example"), none,
   ⟨fun _ => some ⟨"Norway", "NO"⟩, fun _ => some "Oslo", false⟩⟩

/-- Unfolding lemma: `ipFromRequest` with its let-bindings expanded. -/
theorem ipFromRequest_unfold (env : Net) (header : String) (r : Request) :
    ipFromRequest env header r =
      match
        (if headerGet r header = "" then
          match env.splitHostPort r.remoteAddr with
          | .error e => .error e
          | .ok host => .ok host
        else Except.ok (headerGet r header)) with
      | .error e => .error e
      | .ok s =>
        match env.parseIP s with
        | none => .error ("could not parse IP: " ++ s)
        | some ip => .ok ip :=
  rfl

/-- Unfolding lemma: `newPortResponse` with its let-bindings expanded. -/
theorem newPortResponse_unfold (env : Net) (s : Server) (r : Request) :
    newPortResponse env s r =
      (if (parseUint16 (filepathBase r.path)).2 = false
          ∨ (parseUint16 (filepathBase r.path)).1 < 1
          ∨ (parseUint16 (filepathBase r.path)).1 > 65355 then
        some (⟨"", (parseUint16 (filepathBase r.path)).1, false⟩,
          some ("invalid port: " ++ toString (parseUint16 (filepathBase r.path)).1))
      else
        match ipFromRequest env s.ipHeader r with
        | .error e => some (⟨"", (parseUint16 (filepathBase r.path)).1, false⟩, some e)
        | .ok ip =>
          match s.lookupPort with
          | none => none
          | some probe =>
            some (⟨ip, (parseUint16 (filepathBase r.path)).1,
              (probe ip (parseUint16 (filepathBase r.path)).1).isNone⟩, none)) :=
  rfl

/-- C1: the claim states that every numeric port 1..65535 is accepted and
that every rejected trailing segment yields a 400-class error naming the
literal rejected value from the path. The code bounds the range at 65355
(a typo for 65535, flagged in the spec design notes) and names the parsed
value instead of the path segment: port 65400, valid per the claim, is
rejected with a 400 error naming 65400, and the non-numeric segment "abc"
is rejected with a message naming 0; port 80 is accepted and probed. -/
theorem C1_port_bound_eval :
  PortHandler netC serverC reqPort65400 =
    some (noWrite, some ⟨400, "Invalid port: 65400", jsonMediaType⟩) ∧
  PortHandler netC serverC reqPortAbc =
    some (noWrite, some ⟨400, "Invalid port: 0", jsonMediaType⟩) ∧
  PortHandler netC serverC reqPort80 =
    some (⟨some jsonMediaType, marshalPortResponse ⟨"1.2.3.4", 80, true⟩⟩, none) :=
  ⟨rfl, rfl, rfl⟩

/-- C2: the dispatch adapter writes nothing when the wrapped handler
returns nil, and otherwise writes exactly the error status code and
message body, setting the Content-Type header exactly when the error
specifies one; for a JSON-marked error the body is the serialisation of an
object whose single field error holds the original message, under the JSON
content type. -/
theorem C2_adapter_exclusive_write (o : Option AppError) :
  (o = none → appHandlerServeError o = none) ∧
  (∀ e : AppError, o = some e →
    appHandlerServeError o =
      some (e.code,
        (if e.contentType = "" then none else some e.contentType),
        (if e.IsJSON then marshalErrorObj e.message else e.message)) ∧
    (e.IsJSON = true →
      appHandlerServeError o =
        some (e.code, some jsonMediaType, marshalErrorObj e.message))) := by
  refine ⟨fun h => by rw [h]; rfl, fun e he => ?_⟩
  subst he
  refine ⟨rfl, fun hJ => ?_⟩
  have hct : e.contentType = jsonMediaType := of_decide_eq_true hJ
  show some (e.code, _, _) = _
  simp [hJ, hct]
  decide

/-- C2 witness: the adapter at a concrete JSON-marked error. -/
theorem C2_adapter_witness :
  appHandlerServeError (some ⟨500, "boom", jsonMediaType⟩) =
    some (500, some jsonMediaType, marshalErrorObj "boom") :=
  ((C2_adapter_exclusive_write (some ⟨500, "boom", jsonMediaType⟩)).2
    ⟨500, "boom", jsonMediaType⟩ rfl).2 (by decide)

/-- C6: every unmatched request gets a not-found structured error with
message exactly "404 page not found", JSON-marked exactly when the Accept
header equals the JSON media type; through the adapter the body is the
JSON error document in that case and the literal text otherwise. -/
theorem C6_not_found_negotiation (r : Request) :
  (NotFoundHandler r).code = 404 ∧
  (NotFoundHandler r).message = "404 page not found" ∧
  ((NotFoundHandler r).IsJSON = true ↔ headerGet r "accept" = jsonMediaType) ∧
  (headerGet r "accept" = jsonMediaType →
    appHandlerServeError (some (NotFoundHandler r)) =
      some (404, some jsonMediaType, "\x7b\"error\":\"404 page not found\"\x7d")) ∧
  (¬ headerGet r "accept" = jsonMediaType →
    appHandlerServeError (some (NotFoundHandler r)) =
      some (404, none, "404 page not found")) := by
  unfold NotFoundHandler
  by_cases h : headerGet r "accept" = jsonMediaType
  · rw [if_pos h]
    exact ⟨rfl, rfl, iff_of_true (by decide) h, fun _ => by decide, fun hn => absurd h hn⟩
  · rw [if_neg h]
    exact ⟨rfl, rfl, iff_of_false (by decide) h, fun hc => absurd hc h, fun _ => by decide⟩

/-- C6 witness: a request with Accept application/json and one with
Accept text/plain, through the handler and the adapter. -/
theorem C6_not_found_witness :
  headerGet reqAcceptJSON "accept" = jsonMediaType ∧
  appHandlerServeError (some (NotFoundHandler reqAcceptJSON)) =
    some (404, some jsonMediaType, "\x7b\"error\":\"404 page not found\"\x7d") ∧
  appHandlerServeError (some (NotFoundHandler reqAcceptText)) =
    some (404, none, "404 page not found") :=
  ⟨by decide,
   (C6_not_found_negotiation reqAcceptJSON).2.2.2.1 (by decide),
   (C6_not_found_negotiation reqAcceptText).2.2.2.2 (by decide)⟩

/-- C10: the client-signature matcher is true exactly when the parsed
product of the User-Agent string is in the fixed allow-list, false on any
other product, and is a function of the User-Agent string only. -/
theorem C10_cliMatcher_allowlist (uaParse : String → String) (r r2 : Request) :
  (cliMatcher uaParse r = true ↔ uaParse r.userAgent ∈ cliProducts) ∧
  (uaParse r.userAgent ∉ cliProducts → cliMatcher uaParse r = false) ∧
  (r2.userAgent = r.userAgent → cliMatcher uaParse r2 = cliMatcher uaParse r) := by
  refine ⟨?_, ?_, ?_⟩
  · simp [cliMatcher]
  · intro h
    simp [cliMatcher, h]
  · intro h
    simp [cliMatcher, h]

/-- C10 witness: the concrete curl User-Agent string is matched, and two
requests sharing the User-Agent string agree. -/
theorem C10_cliMatcher_witness :
  uaParseC "curl/7.58.0" ∈ cliProducts ∧
  cliMatcher uaParseC reqCurl = true ∧
  cliMatcher uaParseC reqCurl2 = cliMatcher uaParseC reqCurl :=
  ⟨by decide,
   (C10_cliMatcher_allowlist uaParseC reqCurl reqCurl2).1.mpr (by decide),
   (C10_cliMatcher_allowlist uaParseC reqCurl reqCurl2).2.2 (by decide)⟩

/-- C3: the response builder fails exactly when the caller address cannot
be extracted and parsed; with a parseable address it always succeeds, and
a failed geolocation or reverse-hostname lookup only leaves the
corresponding fields empty. -/
theorem C3_newResponse_degrades (env : Net) (s : Server) (r : Request) :
  ((∃ e, newResponse env s r = Except.error e) ↔
    (∃ e, ipFromRequest env s.ipHeader r = Except.error e)) ∧
  (∀ ip, ipFromRequest env s.ipHeader r = Except.ok ip →
    ∃ resp, newResponse env s r = Except.ok resp ∧ resp.ip = ip ∧
      (s.db.country ip = none → resp.country = "" ∧ resp.countryISO = "") ∧
      (s.db.city ip = none → resp.city = "") ∧
      (s.lookupAddr = none → resp.hostname = "") ∧
      (∀ f, s.lookupAddr = some f → f ip = none → resp.hostname = "")) := by
  constructor
  · constructor
    · rintro ⟨e, he⟩
      unfold newResponse at he
      cases h : ipFromRequest env s.ipHeader r with
      | error e2 => exact ⟨e2, rfl⟩
      | ok ip =>
        rw [h] at he
        exact Except.noConfusion he
    · rintro ⟨e, he⟩
      refine ⟨e, ?_⟩
      unfold newResponse
      rw [he]
  · intro ip hip
    unfold newResponse
    rw [hip]
    refine ⟨_, rfl, rfl, ?_, ?_, ?_, ?_⟩
    · intro h
      show ((s.db.country ip).getD ⟨"", ""⟩).name = "" ∧ ((s.db.country ip).getD ⟨"", ""⟩).iso = ""
      rw [h]
      exact ⟨rfl, rfl⟩
    · intro h
      show (s.db.city ip).getD "" = ""
      rw [h]
      rfl
    · intro h
      show (match s.lookupAddr with
            | none => ""
            | some f => (f ip).getD "") = ""
      rw [h]
    · intro f hf hfip
      show (match s.lookupAddr with
            | none => ""
            | some f => (f ip).getD "") = ""
      rw [hf]
      show (f ip).getD "" = ""
      rw [hfip]
      rfl

/-- C3 witness: a concrete request whose address parses while every
collaborator fails leaves the optional fields empty and the builder
succeeding. -/
theorem C3_newResponse_witness :
  ipFromRequest netC serverC.ipHeader reqOK = Except.ok "1.2.3.4" ∧
  serverC.db.country "1.2.3.4" = none ∧
  Except.map Response.country (newResponse netC serverC reqOK) = Except.ok "" ∧
  Except.map Response.hostname (newResponse netC serverC reqOK) = Except.ok "" := by
  obtain ⟨resp, h1, h2, h3, h4, h5, h6⟩ :=
    (C3_newResponse_degrades netC serverC reqOK).2 "1.2.3.4" rfl
  refine ⟨rfl, rfl, ?_, ?_⟩
  · rw [h1]
    exact congrArg Except.ok (h3 rfl).1
  · rw [h1]
    exact congrArg Except.ok (h5 rfl)

/-- C4 counterexample: a request for the valid port 80 whose caller
address does not parse. The claim predicts a 500-class internal error;
the code returns the 400-class JSON-marked error Invalid port: 80. -/
theorem C4_portHandler_counterexample :
  ipFromRequest netC serverC.ipHeader reqPort80BadAddr =
    Except.error "could not parse IP: garbage" ∧
  parseUint16 (filepathBase reqPort80BadAddr.path) = (80, true) ∧
  PortHandler netC serverC reqPort80BadAddr =
    some (noWrite, some ⟨400, "Invalid port: 80", jsonMediaType⟩) :=
  ⟨rfl, rfl, rfl⟩

/-- C4 amended: when the caller address cannot be parsed, CLIHandler,
JSONHandler and DefaultHandler return the 500-class internal error
(JSON-marked for JSONHandler); PortHandler on a valid port instead wraps
the address error as the 400-class JSON-marked invalid-port error naming
the port. -/
theorem C4_address_failure_statuses (env : Net) (s : Server) (r : Request) (e : String)
    (h : ipFromRequest env s.ipHeader r = Except.error e) :
  (CLIHandler env s r).2 = some (internalServerError e) ∧
  (JSONHandler env s r).2 = some (internalServerError e).AsJSON ∧
  (DefaultHandler env s r).2 = some (internalServerError e) ∧
  (internalServerError e).code = 500 ∧
  ((internalServerError e).AsJSON).code = 500 ∧
  (∀ p : Nat, parseUint16 (filepathBase r.path) = (p, true) → 1 ≤ p → p ≤ 65355 →
    PortHandler env s r =
      some (noWrite,
        some (((badRequest e).WithMessage ("Invalid port: " ++ toString p)).AsJSON)) ∧
    (((badRequest e).WithMessage ("Invalid port: " ++ toString p)).AsJSON).code = 400) := by
  have hresp : newResponse env s r = Except.error e := by
    unfold newResponse
    rw [h]
  refine ⟨?_, ?_, ?_, rfl, rfl, ?_⟩
  · unfold CLIHandler
    rw [h]
  · unfold JSONHandler
    rw [hresp]
  · unfold DefaultHandler
    rw [hresp]
  · intro p hp h1 h2
    have hcond : ¬(((p, true).2 : Bool) = false ∨ (p, true).1 < 1 ∨ (p, true).1 > 65355) := by
      rintro (hb | hl | hg)
      · exact Bool.noConfusion hb
      · exact absurd (show p < 1 from hl) (by omega)
      · exact absurd (show p > 65355 from hg) (by omega)
    have hnp : newPortResponse env s r = some (⟨"", p, false⟩, some e) := by
      rw [newPortResponse_unfold, hp, if_neg hcond, h]
    refine ⟨?_, rfl⟩
    unfold PortHandler
    rw [hnp]

/-- C4 witness: the amended behaviour at the concrete port-80 request
whose trusted-header address is unparseable. -/
theorem C4_address_failure_witness :
  ipFromRequest netC serverC.ipHeader reqPort80BadAddr =
    Except.error "could not parse IP: garbage" ∧
  (CLIHandler netC serverC reqPort80BadAddr).2 =
    some (internalServerError "could not parse IP: garbage") ∧
  PortHandler netC serverC reqPort80BadAddr =
    some (noWrite,
      some (((badRequest "could not parse IP: garbage").WithMessage
        "Invalid port: 80").AsJSON)) := by
  have h := C4_address_failure_statuses netC serverC reqPort80BadAddr
    "could not parse IP: garbage" rfl
  exact ⟨rfl, h.1, (h.2.2.2.2.2 80 rfl (by omega) (by omega)).1⟩

/-- C5 counterexample: first, a request whose trusted header holds an
unparseable value while the transport remote address would parse; the
claim predicts success from the transport source, the code fails. Second,
a request whose trusted header is present with an empty value; the claim
predicts that only the header is used, the code falls back to the
transport address and succeeds. -/
theorem C5_header_counterexample :
  (splitHostPortC reqBadHdr.remoteAddr = Except.ok "1.2.3.4" ∧
   parseIPc "1.2.3.4" = some "1.2.3.4" ∧
   ipFromRequest netC "X-Ip" reqBadHdr = Except.error "could not parse IP: garbage") ∧
  (("X-Ip", "") ∈ reqEmptyHdr.headers ∧
   ipFromRequest netC "X-Ip" reqEmptyHdr = Except.ok "1.2.3.4") :=
  ⟨⟨rfl, rfl, rfl⟩, ⟨by decide, rfl⟩⟩

/-- Helper: on a non-empty header value that parses, `ipFromRequest`
succeeds with the parsed address. -/
theorem ipFromRequest_header_some (env : Net) (header : String) (r : Request) (ip : String)
    (hne : ¬ headerGet r header = "") (hp : env.parseIP (headerGet r header) = some ip) :
    ipFromRequest env header r = Except.ok ip := by
  rw [ipFromRequest_unfold, if_neg hne]
  show (match env.parseIP (headerGet r header) with
        | none => Except.error ("could not parse IP: " ++ headerGet r header)
        | some ip => Except.ok ip) = Except.ok ip
  rw [hp]

/-- Helper: on a non-empty header value that does not parse,
`ipFromRequest` fails with the parse error naming that value. -/
theorem ipFromRequest_header_none (env : Net) (header : String) (r : Request)
    (hne : ¬ headerGet r header = "") (hp : env.parseIP (headerGet r header) = none) :
    ipFromRequest env header r = Except.error ("could not parse IP: " ++ headerGet r header) := by
  rw [ipFromRequest_unfold, if_neg hne]
  show (match env.parseIP (headerGet r header) with
        | none => Except.error ("could not parse IP: " ++ headerGet r header)
        | some ip => Except.ok ip) = _
  rw [hp]

/-- Helper: with no usable header and a failing host/port split,
`ipFromRequest` propagates the split error. -/
theorem ipFromRequest_remote_error (env : Net) (header : String) (r : Request) (e : String)
    (heq : headerGet r header = "") (hs : env.splitHostPort r.remoteAddr = Except.error e) :
    ipFromRequest env header r = Except.error e := by
  rw [ipFromRequest_unfold, if_pos heq, hs]

/-- Helper: with no usable header and an unparseable remote host,
`ipFromRequest` fails with the parse error naming the host. -/
theorem ipFromRequest_remote_none (env : Net) (header : String) (r : Request) (host : String)
    (heq : headerGet r header = "") (hs : env.splitHostPort r.remoteAddr = Except.ok host)
    (hp : env.parseIP host = none) :
    ipFromRequest env header r = Except.error ("could not parse IP: " ++ host) := by
  rw [ipFromRequest_unfold, if_pos heq, hs]
  show (match env.parseIP host with
        | none => Except.error ("could not parse IP: " ++ host)
        | some ip => Except.ok ip) = _
  rw [hp]

/-- Helper: with no usable header and a parseable remote host,
`ipFromRequest` succeeds with the parsed address. -/
theorem ipFromRequest_remote_some (env : Net) (header : String) (r : Request) (host ip : String)
    (heq : headerGet r header = "") (hs : env.splitHostPort r.remoteAddr = Except.ok host)
    (hp : env.parseIP host = some ip) :
    ipFromRequest env header r = Except.ok ip := by
  rw [ipFromRequest_unfold, if_pos heq, hs]
  show (match env.parseIP host with
        | none => Except.error ("could not parse IP: " ++ host)
        | some ip => Except.ok ip) = _
  rw [hp]

/-- C5 amended: when the trusted header is present with a non-empty
value, only that value is consulted (the outcome is independent of the
remote address, and an error occurs exactly when the header value does
not parse); when the header is absent or empty, the host part of the
transport remote address is consulted, and an error occurs exactly when
the split fails or the host does not parse. -/
theorem C5_ipFromRequest_amended (env : Net) (header : String) (r : Request) :
  (¬ headerGet r header = "" →
    ((∃ e, ipFromRequest env header r = Except.error e) ↔
      env.parseIP (headerGet r header) = none) ∧
    (∀ ip, env.parseIP (headerGet r header) = some ip →
      ipFromRequest env header r = Except.ok ip) ∧
    (∀ r2 : Request, r2.headers = r.headers →
      ipFromRequest env header r2 = ipFromRequest env header r)) ∧
  (headerGet r header = "" →
    ((∃ e, ipFromRequest env header r = Except.error e) ↔
      ((∃ e, env.splitHostPort r.remoteAddr = Except.error e) ∨
       (∃ host, env.splitHostPort r.remoteAddr = Except.ok host ∧
         env.parseIP host = none))) ∧
    (∀ host ip, env.splitHostPort r.remoteAddr = Except.ok host →
      env.parseIP host = some ip →
      ipFromRequest env header r = Except.ok ip)) := by
  constructor
  · intro hne
    have hsame : ∀ r2 : Request, r2.headers = r.headers →
        ipFromRequest env header r2 = ipFromRequest env header r := by
      intro r2 h2
      have hh : headerGet r2 header = headerGet r header := by
        unfold headerGet
        rw [h2]
      rw [ipFromRequest_unfold env header r2, ipFromRequest_unfold env header r, hh,
        if_neg hne, if_neg hne]
    refine ⟨?_, ?_, hsame⟩
    · cases hp : env.parseIP (headerGet r header) with
      | none =>
        exact iff_of_true ⟨_, ipFromRequest_header_none env header r hne hp⟩ rfl
      | some ip =>
        refine iff_of_false ?_ ?_
        · rintro ⟨e, he⟩
          rw [ipFromRequest_header_some env header r ip hne hp] at he
          exact Except.noConfusion he
        · intro hc
          exact Option.noConfusion hc
    · intro ip hip
      exact ipFromRequest_header_some env header r ip hne hip
  · intro heq
    refine ⟨?_, ?_⟩
    · cases hs : env.splitHostPort r.remoteAddr with
      | error e =>
        exact iff_of_true ⟨e, ipFromRequest_remote_error env header r e heq hs⟩
          (Or.inl ⟨e, rfl⟩)
      | ok host =>
        cases hp : env.parseIP host with
        | none =>
          exact iff_of_true ⟨_, ipFromRequest_remote_none env header r host heq hs hp⟩
            (Or.inr ⟨host, rfl, hp⟩)
        | some ip =>
          refine iff_of_false ?_ ?_
          · rintro ⟨e, he⟩
            rw [ipFromRequest_remote_some env header r host ip heq hs hp] at he
            exact Except.noConfusion he
          · rintro (⟨e, he⟩ | ⟨host2, hh, hp2⟩)
            · exact Except.noConfusion he
            · rw [Except.ok.injEq] at hh
              rw [← hh] at hp2
              rw [hp] at hp2
              exact Option.noConfusion hp2
    · intro host ip hs hp
      exact ipFromRequest_remote_some env header r host ip heq hs hp

/-- C5 witness: the amended behaviour at concrete requests — the
non-empty header value decides the outcome by itself, and two requests
sharing headers agree regardless of remote address. -/
theorem C5_ipFromRequest_witness :
  ipFromRequest netC "X-Ip" reqBadHdr =
    ipFromRequest netC "X-Ip"
      ⟨"GET", "/", [("X-Ip", "garbage")], "10.0.0.7:5555", "", "example.com"⟩ ∧
  ipFromRequest netC "X-Ip" reqEmptyHdr = Except.ok "1.2.3.4" := by
  have h1 := (C5_ipFromRequest_amended netC "X-Ip" reqBadHdr).1 (by decide)
  have h2 := (C5_ipFromRequest_amended netC "X-Ip" reqEmptyHdr).2 (by decide)
  exact ⟨(h1.2.2 ⟨"GET", "/", [("X-Ip", "garbage")], "10.0.0.7:5555", "", "example.com"⟩ rfl).symm,
    h2.2 "1.2.3.4" "1.2.3.4" rfl rfl⟩

/-- C7: with a port the code accepts and a parseable caller address, the
port response carries a nil error and reports reachability as the boolean
success of the probe; the output depends on the probe only through that
boolean, so the probe error detail never reaches the client. -/
theorem C7_port_probe_boolean (env : Net) (s : Server) (r : Request)
    (f : String → Nat → Option String) (p : Nat) (ip : String)
    (hf : s.lookupPort = some f)
    (hp : parseUint16 (filepathBase r.path) = (p, true))
    (h1 : 1 ≤ p) (h2 : p ≤ 65355)
    (hip : ipFromRequest env s.ipHeader r = Except.ok ip) :
  newPortResponse env s r = some (⟨ip, p, (f ip p).isNone⟩, none) ∧
  PortHandler env s r =
    some (⟨some jsonMediaType, marshalPortResponse ⟨ip, p, (f ip p).isNone⟩⟩, none) ∧
  (∀ g : String → Nat → Option String, (g ip p).isNone = (f ip p).isNone →
    PortHandler env { s with lookupPort := some g } r = PortHandler env s r) := by
  have hcond : ¬(((p, true).2 : Bool) = false ∨ (p, true).1 < 1 ∨ (p, true).1 > 65355) := by
    rintro (hb | hl | hg)
    · exact Bool.noConfusion hb
    · exact absurd (show p < 1 from hl) (by omega)
    · exact absurd (show p > 65355 from hg) (by omega)
  have key : ∀ (s2 : Server) (f2 : String → Nat → Option String),
      s2.ipHeader = s.ipHeader → s2.lookupPort = some f2 →
      newPortResponse env s2 r = some (⟨ip, p, (f2 ip p).isNone⟩, none) := by
    intro s2 f2 hh hf2
    rw [newPortResponse_unfold, hp, if_neg hcond, hh, hip, hf2]
  have h1p := key s f rfl hf
  have hph : PortHandler env s r =
      some (⟨some jsonMediaType, marshalPortResponse ⟨ip, p, (f ip p).isNone⟩⟩, none) := by
    unfold PortHandler
    rw [h1p]
  refine ⟨h1p, hph, ?_⟩
  intro g hg
  have h2p := key { s with lookupPort := some g } g rfl rfl
  unfold PortHandler
  rw [h1p, h2p, hg]

/-- C7 witness: the concrete port-80 request through the configured probe
is reported reachable with a nil error. -/
theorem C7_port_probe_witness :
  serverC.lookupPort = some probeC ∧
  parseUint16 (filepathBase reqPort80.path) = (80, true) ∧
  ipFromRequest netC serverC.ipHeader reqPort80 = Except.ok "1.2.3.4" ∧
  PortHandler netC serverC reqPort80 =
    some (⟨some jsonMediaType, marshalPortResponse ⟨"1.2.3.4", 80, true⟩⟩, none) := by
  have h := C7_port_probe_boolean netC serverC reqPort80 probeC 80 "1.2.3.4"
    rfl rfl (by omega) (by omega) rfl
  exact ⟨rfl, rfl, rfl, h.2.1⟩

/-- C8: with a parseable caller address, CLIHandler writes exactly the
textual address followed by a newline and returns nil, and its result is
unchanged under any change of the collaborators (only the configured
header name matters). -/
theorem C8_cli_plain_line (env : Net) (s : Server) (r : Request) (ip : String)
    (h : ipFromRequest env s.ipHeader r = Except.ok ip) :
  CLIHandler env s r = (⟨none, ip ++ "\n"⟩, none) ∧
  (∀ s2 : Server, s2.ipHeader = s.ipHeader → CLIHandler env s2 r = CLIHandler env s r) := by
  constructor
  · unfold CLIHandler
    rw [h]
  · intro s2 h2
    unfold CLIHandler
    rw [h2]

/-- C8 witness: the concrete request yields the single line, and a server
with entirely different collaborators yields the same output. -/
theorem C8_cli_witness :
  ipFromRequest netC serverC.ipHeader reqOK = Except.ok "1.2.3.4" ∧
  CLIHandler netC serverC reqOK = (⟨none, "1.2.3.4\n"⟩, none) ∧
  CLIHandler netC serverAltC reqOK = CLIHandler netC serverC reqOK := by
  have h := C8_cli_plain_line netC serverC reqOK "1.2.3.4" rfl
  exact ⟨rfl, h.1, h.2 serverAltC rfl⟩

/-- C9: the handler registers exactly the route list of the claim, in
order: JSON-accept root, /json, predicate root, text-accept root, /ip,
then the three geolocation routes exactly when the database is non-empty,
then the browser root, then the /port/ prefix route exactly when the
port probe is configured. -/
theorem C9_route_registration_order (s : Server) (uaParse : String → String) :
  serverHandlerRoutes s uaParse =
    [⟨"GET", .exactP "/", [("Accept", jsonMediaType)], none, .jsonH⟩,
     ⟨"GET", .exactP "/json", [], none, .jsonH⟩,
     ⟨"GET", .exactP "/", [], some (cliMatcher uaParse), .cliH⟩,
     ⟨"GET", .exactP "/", [("Accept", textMediaType)], none, .cliH⟩,
     ⟨"GET", .exactP "/ip", [], none, .cliH⟩]
    ++ (if s.db.isEmpty then []
        else [⟨"GET", .exactP "/country", [], none, .countryH⟩,
              ⟨"GET", .exactP "/country-iso", [], none, .countryISOH⟩,
              ⟨"GET", .exactP "/city", [], none, .cityH⟩])
    ++ [⟨"GET", .exactP "/", [], none, .defaultH⟩]
    ++ (if s.lookupPort.isSome then [⟨"GET", .pfxP "/port/", [], none, .portH⟩]
        else []) := by
  cases hdb : s.db.isEmpty <;> cases hlp : s.lookupPort <;>
    simp only [serverHandlerRoutes, hdb, hlp] <;> rfl

end Ipd
